import Mathlib

set_option maxHeartbeats 1000000

/-
Verification development for the scheduled-post dispatcher, rate governor,
response cache and HTTP handlers of twitter-backend/server.js.

Modelling conventions:
- all times are Nat milliseconds (JS Date.now() values);
- JS truncating subtraction comparisons (x - y < c with c > 0) coincide with
  Nat truncated subtraction, so Nat subtraction is used throughout;
- the document store is a List of records, a Mongo query plus per-document
  save is a map over the list, and findOneAndDelete removes the first match;
- the upstream Twitter client and the user collection are external
  collaborators, passed in as explicit oracles (functions) in an environment.
-/

/-! ## Data model (models/ScheduledTweet.js, models/User.js) -/

inductive TweetStatus
  | pending
  | posted
  | failed
  deriving DecidableEq, Repr

/-- A ScheduledTweet document: fields of the Mongoose schema that the
dispatcher and handlers read or write. -/
structure ScheduledTweet where
  id : Nat
  userId : String
  message : String
  scheduleTime : Nat
  status : TweetStatus
  postedAt : Option Nat
  error : Option String
  createdAt : Nat
  deriving DecidableEq, Repr

/-- A User document: the credential fields the dispatcher needs.  A missing
token is modelled as none. -/
structure User where
  userId : String
  accessToken : Option String
  accessSecret : Option String
  deriving DecidableEq, Repr

/-- initializeTwitterClient throws unless both accessToken and accessSecret
are present. -/
def hasTokens (u : User) : Bool :=
  u.accessToken.isSome && u.accessSecret.isSome

/-- Outcome of one twitterClient.v2.tweet call (external collaborator). -/
inductive PostCallResult
  | ok
  | err (msg : String)
  deriving DecidableEq, Repr

/-- Environment of one sweep: the sweep time, the User collection and the
upstream post call, as oracles. -/
structure SweepEnv where
  now : Nat
  findUser : String → Option User
  post : ScheduledTweet → PostCallResult

/-! ## Dispatcher sweeps (server.js lines 124-205) -/

/-- The body of the checkScheduledTweets loop for a single record, together
with the selection filter (status pending and scheduleTime ≤ now).  A record
outside the selection is left untouched; a selected record is settled:
missing user or missing tokens throw inside the per-record try, landing in
the catch that marks the record failed with the error message; otherwise the
upstream call decides between posted (with postedAt stamped) and failed. -/
def processDue (env : SweepEnv) (t : ScheduledTweet) : ScheduledTweet :=
  if t.status = .pending ∧ t.scheduleTime ≤ env.now then
    match env.findUser t.userId with
    | none => { t with status := .failed, error := some "User not found" }
    | some u =>
      if hasTokens u then
        match env.post t with
        | .ok => { t with status := .posted, postedAt := some env.now }
        | .err m => { t with status := .failed, error := some m }
      else { t with status := .failed, error := some "User tokens not available" }
  else t

/-- The due-post sweep: every record is processed independently (the JS
for-loop catches each record's error inside the loop body and continues). -/
def checkScheduledTweets (env : SweepEnv) (store : List ScheduledTweet) :
    List ScheduledTweet :=
  store.map (processDue env)

/-- The body of the retryFailedTweets loop for a single record, with its
selection filter (status failed and scheduleTime ≤ now).  A missing user hits
the continue statement (no state change); a missing token throws into the
catch, which only replaces the error message; success transitions to posted,
stamps postedAt and clears the error (tweet.error = null). -/
def processRetry (env : SweepEnv) (t : ScheduledTweet) : ScheduledTweet :=
  if t.status = .failed ∧ t.scheduleTime ≤ env.now then
    match env.findUser t.userId with
    | none => t
    | some u =>
      if hasTokens u then
        match env.post t with
        | .ok => { t with status := .posted, postedAt := some env.now, error := none }
        | .err m => { t with error := some m }
      else { t with error := some "User tokens not available" }
  else t

/-- The failed-post retry sweep (runs every 5 minutes). -/
def retryFailedTweets (env : SweepEnv) (store : List ScheduledTweet) :
    List ScheduledTweet :=
  store.map (processRetry env)

/-! ## Rate governor (server.js lines 226-294) -/

/-- Per-user per-class entry of the rateLimitTracker maps. -/
structure UserLimits where
  count : Nat
  reset : Nat
  lastRequest : Nat
  deriving DecidableEq, Repr

/-- The decision object returned by rateLimitTracker.check. -/
structure RLDecision where
  allowed : Bool
  reset : Nat
  remaining : Int
  deriving DecidableEq, Repr

/-- The two operation classes (the tracker's two maps). -/
inductive RLClass
  | tweets
  | analytics
  deriving DecidableEq, Repr

/-- 150 tweets/hour, 300 analytics/hour. -/
def rlLimit : RLClass → Nat
  | .tweets => 150
  | .analytics => 300

/-- 1 second for tweets, 2 seconds for analytics. -/
def rlCooldown : RLClass → Nat
  | .tweets => 1000
  | .analytics => 2000

/-- One hour window. -/
def rlWindow : Nat := 60 * 60 * 1000

/-- One of the tracker's per-class Maps, as a function from user id. -/
def Tracker : Type := String → Option UserLimits

/-- Map.set. -/
def trackerSet (m : Tracker) (k : String) (v : UserLimits) : Tracker :=
  fun k2 => if k2 = k then some v else m k2

/-- The entry lazily created on first check: count 0, reset one hour from
now, lastRequest 0. -/
def freshLimits (now : Nat) : UserLimits :=
  ⟨0, now + rlWindow, 0⟩

/-- The entry the check works on: the stored entry (or the lazily created
default), with the window reset applied when the reset time has passed. -/
def effLimits (m : Tracker) (uid : String) (now : Nat) : UserLimits :=
  let u0 := (m uid).getD (freshLimits now)
  if u0.reset ≤ now then freshLimits now else u0

/-- rateLimitTracker.check.  Returns the decision and the tracker map after
the call.  The JS code mutates the stored entry object in place when the
window reset fires, so when an entry already existed the reset is visible in
the map even on a denied request; this is reproduced by m1 below. -/
def rateLimitTracker.check (ty : RLClass) (userId : Option String) (now : Nat)
    (m : Tracker) : RLDecision × Tracker :=
  match userId with
  | none => (⟨false, now + 2000, 0⟩, m)
  | some uid =>
    let u1 := effLimits m uid now
    let m1 := if (m uid).isSome then trackerSet m uid u1 else m
    if now - u1.lastRequest < rlCooldown ty then
      (⟨false, u1.lastRequest + rlCooldown ty, (rlLimit ty : Int) - u1.count⟩, m1)
    else if u1.count < rlLimit ty then
      (⟨true, u1.reset, (rlLimit ty : Int) - (u1.count + 1)⟩,
        trackerSet m1 uid ⟨u1.count + 1, u1.reset, now⟩)
    else
      (⟨false, u1.reset, (rlLimit ty : Int) - u1.count⟩, m1)

/-- Iterated checks for one user/class: the tracker after i calls, with call
times given by t. -/
def rlStateAfter (ty : RLClass) (uid : String) (t : Nat → Nat) (m0 : Tracker) :
    Nat → Tracker
  | 0 => m0
  | i + 1 => (rateLimitTracker.check ty (some uid) (t i) (rlStateAfter ty uid t m0 i)).snd

/-- The decision returned by the (i+1)-th call (0-indexed i). -/
def rlDecisionAt (ty : RLClass) (uid : String) (t : Nat → Nat) (m0 : Tracker)
    (i : Nat) : RLDecision :=
  (rateLimitTracker.check ty (some uid) (t i) (rlStateAfter ty uid t m0 i)).fst

/-! ## Response caches and read endpoints (server.js lines 211-224, 540-692, 746-890) -/

/-- tweetsCache / analyticsCache: last successful payload and its fetch time
(both null before the first successful fetch).  The rateLimit header snapshot
field is omitted: it only feeds response headers. -/
structure CacheState (α : Type) where
  data : Option (List α)
  lastFetched : Option Nat
  deriving DecidableEq, Repr

/-- cacheAge: now - (lastFetched or 0). -/
def cacheAge {α : Type} (c : CacheState α) (now : Nat) : Nat :=
  now - c.lastFetched.getD 0

/-- CACHE_DURATION = 30 seconds for both read endpoints. -/
def CACHE_DURATION : Nat := 30 * 1000

/-- Outcome of one upstream userTimeline call: the processed item list on
success, or a 429 (with the optional x-rate-limit-reset header, in seconds),
or any other error. -/
inductive UpstreamResult (α : Type)
  | ok (items : List α)
  | err429 (resetHeader : Option Nat)
  | errOther (msg : String)
  deriving DecidableEq, Repr

/-- The JSON envelope of a read endpoint response (fields used by the spec). -/
structure ReadResponse (α : Type) where
  status : Nat
  success : Bool
  payload : Option (List α)
  cached : Option Bool
  notice : Option String
  resetTime : Option Nat
  errMsg : Option String
  deriving DecidableEq, Repr

/-- The full observable outcome of one read request: the response, the cache
and rate tracker afterwards, and whether the upstream API was called. -/
structure ReadOutcome (α : Type) where
  resp : ReadResponse α
  cache : CacheState α
  rl : Tracker
  upstreamCalled : Bool

/-- The hasCachedData test of the analytics endpoint (line 758):
analyticsCache.data && analyticsCache.data.length > 0 — an empty cached
payload counts as no cache.  (The tweets endpoint instead tests
Array.isArray, for which an empty array passes.) -/
def analyticsHasCached {α : Type} (c : CacheState α) : Bool :=
  match c.data with
  | some l => decide (0 < l.length)
  | none => false

/-- GET /api/tweets.  Takes the authentication state, whether the session
user carries both tokens, the current time, the cache and tracker states and
the upstream call outcome.  Note: this handler never consults
rateLimitTracker — its rl argument is returned untouched and never read. -/
def getTweetsHandler {α : Type} (authed : Bool) (tokensOk : Bool) (now : Nat)
    (cache : CacheState α) (rl : Tracker) (upstream : UpstreamResult α) :
    ReadOutcome α :=
  if authed = false then
    ⟨⟨401, false, none, none, none, none, some "Not authenticated"⟩, cache, rl, false⟩
  else if cache.data.isSome = true ∧ cacheAge cache now < CACHE_DURATION then
    ⟨⟨200, true, cache.data, some true, none, none, none⟩, cache, rl, false⟩
  else if tokensOk = false then
    if cache.data.isSome = true then
      ⟨⟨200, true, cache.data, some true,
        some "Authentication error - showing cached tweets", none, none⟩, cache, rl, false⟩
    else
      ⟨⟨401, false, none, none, none, none, some "Twitter authentication failed"⟩,
        cache, rl, false⟩
  else
    match upstream with
    | .ok items =>
      ⟨⟨200, true, some items, some false, none, none, none⟩,
        ⟨some items, some now⟩, rl, true⟩
    | .err429 rh =>
      if cache.data.isSome = true then
        ⟨⟨200, true, cache.data, some true,
          some "Rate limit reached - showing cached tweets", none, none⟩, cache, rl, true⟩
      else
        ⟨⟨429, false, none, none, none,
          some (match rh with
                | some r => r * 1000
                | none => ((now + 15 * 60 * 1000) / 1000) * 1000),
          some "Rate limit exceeded"⟩, cache, rl, true⟩
    | .errOther m =>
      if cache.data.isSome = true then
        ⟨⟨200, true, cache.data, some true,
          some "Error fetching new tweets - showing cached tweets", none, none⟩,
          cache, rl, true⟩
      else
        ⟨⟨500, false, none, none, none, none, some m⟩, cache, rl, true⟩

/-- GET /api/analytics.  Cache freshness is tested before the rate governor
("Only check rate limits if we need to fetch fresh data"); the governor is
consulted — and its state mutated — only past a fresh cache hit.  The catch
block's fallback test (line 851) is data && Array.isArray(data), which unlike
hasCachedData accepts an empty cached payload. -/
def getAnalyticsHandler {α : Type} (user : Option String) (tokensOk : Bool)
    (now : Nat) (cache : CacheState α) (rl : Tracker)
    (upstream : UpstreamResult α) : ReadOutcome α :=
  match user with
  | none =>
    ⟨⟨401, false, none, none, none, none, some "Please log in to view analytics"⟩,
      cache, rl, false⟩
  | some uid =>
    if analyticsHasCached cache = true ∧ cacheAge cache now < CACHE_DURATION then
      ⟨⟨200, true, cache.data, some true, none, none, none⟩, cache, rl, false⟩
    else
      let dm := rateLimitTracker.check .analytics (some uid) now rl
      if dm.fst.allowed = false then
        if analyticsHasCached cache = true then
          ⟨⟨200, true, cache.data, some true,
            some "Rate limited - showing cached data", none, none⟩, cache, dm.snd, false⟩
        else
          ⟨⟨429, false, none, none, none, some dm.fst.reset,
            some "Please wait a moment before refreshing analytics"⟩, cache, dm.snd, false⟩
      else if tokensOk = false then
        if analyticsHasCached cache = true then
          ⟨⟨200, true, cache.data, some true,
            some "Authentication error - showing cached analytics", none, none⟩,
            cache, dm.snd, false⟩
        else
          ⟨⟨401, false, none, none, none, none, some "Twitter authentication failed"⟩,
            cache, dm.snd, false⟩
      else
        match upstream with
        | .ok items =>
          ⟨⟨200, true, some items, some false, none, none, none⟩,
            ⟨some items, some now⟩, dm.snd, true⟩
        | .err429 rh =>
          if cache.data.isSome = true then
            ⟨⟨200, true, cache.data, some true,
              some "Rate limit reached - showing cached analytics", none, none⟩,
              cache, dm.snd, true⟩
          else
            ⟨⟨429, false, none, none, none,
              some (match rh with
                    | some r => r * 1000
                    | none => now + 15 * 60 * 1000),
              some "Rate limit exceeded"⟩, cache, dm.snd, true⟩
        | .errOther _ =>
          if cache.data.isSome = true then
            ⟨⟨200, true, cache.data, some true,
              some "Error fetching analytics - showing cached data", none, none⟩,
              cache, dm.snd, true⟩
          else
            ⟨⟨500, false, none, none, none, none, some "Failed to fetch analytics"⟩,
              cache, dm.snd, true⟩

/-! ## POST /api/tweet and DELETE /api/scheduled-tweets/:id (lines 320-437, 474-510) -/

/-- Outcome of the immediate (non-scheduled) twitterClient.v2.tweet call. -/
inductive ImmediateResult
  | posted (tweetId : Nat)
  | err429 (resetHeader : Option Nat)
  | errOther (msg : String)
  deriving DecidableEq, Repr

/-- Leading-whitespace removal on a character list. -/
def dropWs : List Char → List Char
  | [] => []
  | c :: cs => if c.isWhitespace then dropWs cs else c :: cs

/-- JS String.prototype.trim: strip whitespace from both ends.  (An
executable model; Lean's own String.trim does not reduce in the kernel.) -/
def strTrim (s : String) : String :=
  ⟨((dropWs ((dropWs s.data).reverse)).reverse)⟩

/-- The JSON envelope of the POST /api/tweet response. -/
structure PostResponse where
  status : Nat
  success : Bool
  scheduled : Option Bool
  scheduleId : Option Nat
  scheduledFor : Option Nat
  tweetId : Option Nat
  resetTime : Option Nat
  errMsg : Option String
  deriving DecidableEq, Repr

/-- POST /api/tweet.  scheduleTime models the request field after the JS
truthiness test on line 369: none is an absent (or falsy) scheduleTime, and
some p a truthy value whose Date parse result is p (none when new Date gives
an Invalid Date).  nextId is the id Mongo assigns to a created document.
Returns the response, the tracker and the store after the request. -/
def postTweetHandler (user : Option String) (message : Option String)
    (scheduleTime : Option (Option Nat)) (now : Nat) (nextId : Nat)
    (rl : Tracker) (store : List ScheduledTweet) (immediate : ImmediateResult) :
    PostResponse × Tracker × List ScheduledTweet :=
  match user with
  | none =>
    (⟨401, false, none, none, none, none, none, some "Please log in to post tweets"⟩,
      rl, store)
  | some uid =>
    let dm := rateLimitTracker.check .tweets (some uid) now rl
    if dm.fst.allowed = false then
      (⟨429, false, none, none, none, none, some dm.fst.reset,
        some "Please wait a moment before posting another tweet"⟩, dm.snd, store)
    else if (strTrim (message.getD "") = "") then
      (⟨400, false, none, none, none, none, none, some "Message is required"⟩,
        dm.snd, store)
    else if 280 < (message.getD "").length then
      (⟨400, false, none, none, none, none, none, some "Tweet exceeds 280 characters"⟩,
        dm.snd, store)
    else
      match scheduleTime with
      | some parsed =>
        match parsed with
        | none =>
          (⟨400, false, none, none, none, none, none, some "Invalid schedule time"⟩,
            dm.snd, store)
        | some st =>
          if st ≤ now then
            (⟨400, false, none, none, none, none, none,
              some "Schedule time must be in the future"⟩, dm.snd, store)
          else
            (⟨200, true, some true, some nextId, some st, none, none, none⟩, dm.snd,
              store ++ [⟨nextId, uid, strTrim (message.getD ""), st, .pending, none, none, now⟩])
      | none =>
        match immediate with
        | .posted tid =>
          (⟨200, true, some false, none, none, some tid, none, none⟩, dm.snd, store)
        | .err429 rh =>
          (⟨429, false, none, none, none, none,
            some (match rh with
                  | some r => r * 1000
                  | none => ((now + 15 * 60 * 1000) / 1000) * 1000),
            some "Rate limit exceeded"⟩, dm.snd, store)
        | .errOther m =>
          (⟨500, false, none, none, none, none, none, some m⟩, dm.snd, store)

/-- ScheduledTweet.findOneAndDelete with query id, userId, status pending:
removes the first matching document and returns it, or returns none leaving
the store as it was. -/
def findOneAndDeletePending : List ScheduledTweet → String → Nat →
    Option ScheduledTweet × List ScheduledTweet
  | [], _, _ => (none, [])
  | t :: ts, uid, id =>
    if t.id = id ∧ t.userId = uid ∧ t.status = .pending then (some t, ts)
    else
      let r := findOneAndDeletePending ts uid id
      (r.fst, t :: r.snd)

/-- The JSON envelope of the cancellation response. -/
structure BasicResponse where
  status : Nat
  success : Bool
  errMsg : Option String
  deriving DecidableEq, Repr

/-- DELETE /api/scheduled-tweets/:id. -/
def cancelScheduledTweet (user : Option String) (id : Nat)
    (store : List ScheduledTweet) : BasicResponse × List ScheduledTweet :=
  match user with
  | none =>
    (⟨401, false, some "Please log in to cancel scheduled tweets"⟩, store)
  | some uid =>
    let r := findOneAndDeletePending store uid id
    match r.fst with
    | none => (⟨404, false, some "Scheduled tweet not found or already posted"⟩, r.snd)
    | some _ => (⟨200, true, none⟩, r.snd)

/-! ## Theorems -/

/-- Helper: a map whose function fixes every member is the identity. -/
theorem listMapFix {α : Type} (f : α → α) :
    ∀ l : List α, (∀ x ∈ l, f x = x) → l.map f = l := by
  intro l
  induction l with
  | nil => intro _; rfl
  | cons a tl ih =>
    intro h
    simp only [List.map_cons]
    rw [h a (by simp), ih (fun x hx => h x (by simp [hx]))]

/-- Claim C1: every record that is pending and due at the sweep time is,
after the due-post sweep, exactly posted (with postedAt stamped) or failed
(with an error message recorded, the missing-credentials cases included);
each record's outcome is the image of that record alone under the per-record
body, so one record's failure never prevents the others from being
attempted. -/
theorem dueSweepSettlesPending (env : SweepEnv) (store : List ScheduledTweet)
    (i : Nat) (t : ScheduledTweet) (hget : store.get? i = some t)
    (hp : t.status = .pending) (hd : t.scheduleTime ≤ env.now) :
    (checkScheduledTweets env store).get? i = some (processDue env t) ∧
    (((processDue env t).status = .posted ∧ (processDue env t).postedAt = some env.now) ∨
      ((processDue env t).status = .failed ∧ (processDue env t).error ≠ none)) ∧
    ((processDue env t).status = .posted ↔
      ∃ u, env.findUser t.userId = some u ∧ hasTokens u = true ∧ env.post t = .ok) := by
  refine ⟨?_, ?_, ?_⟩
  · have h2 : store[i]? = some t := by rw [← List.get?_eq_getElem?]; exact hget
    simp [checkScheduledTweets, List.get?_eq_getElem?, List.getElem?_map, h2]
  · unfold processDue
    rw [if_pos ⟨hp, hd⟩]
    cases hu : env.findUser t.userId with
    | none => exact Or.inr ⟨rfl, by simp⟩
    | some u =>
      cases htok : hasTokens u with
      | false => simp [htok]
      | true =>
        cases hpost : env.post t with
        | ok => simp [htok, hpost]
        | err m => simp [htok, hpost]
  · unfold processDue
    rw [if_pos ⟨hp, hd⟩]
    cases hu : env.findUser t.userId with
    | none => simp
    | some u =>
      cases htok : hasTokens u with
      | false => simp [htok]
      | true =>
        cases hpost : env.post t with
        | ok => simp [htok, hpost]
        | err m => simp [htok, hpost]

/-- Closed instance of claim C1's theorem at a concrete sweep. -/
theorem dueSweepSettlesPendingWitness :
    (checkScheduledTweets
        ⟨1000, fun u => if u = "alice" then some ⟨"alice", some "tk", some "sc"⟩ else none,
          fun _ => .ok⟩
        [⟨1, "alice", "hi", 500, .pending, none, none, 100⟩]).get? 0 =
      some (processDue
        ⟨1000, fun u => if u = "alice" then some ⟨"alice", some "tk", some "sc"⟩ else none,
          fun _ => .ok⟩
        ⟨1, "alice", "hi", 500, .pending, none, none, 100⟩) ∧
    (processDue
        ⟨1000, fun u => if u = "alice" then some ⟨"alice", some "tk", some "sc"⟩ else none,
          fun _ => .ok⟩
        ⟨1, "alice", "hi", 500, .pending, none, none, 100⟩).status = .posted := by
  have h := dueSweepSettlesPending
    ⟨1000, fun u => if u = "alice" then some ⟨"alice", some "tk", some "sc"⟩ else none,
      fun _ => .ok⟩
    [⟨1, "alice", "hi", 500, .pending, none, none, 100⟩]
    0 ⟨1, "alice", "hi", 500, .pending, none, none, 100⟩ rfl rfl (by decide)
  exact ⟨h.1, h.2.2.mpr ⟨⟨"alice", some "tk", some "sc"⟩, rfl, rfl, rfl⟩⟩

/-- Claim C7: the retry sweep selects exactly the failed records whose
scheduleTime has passed (everything else is untouched, so a failed post is
never retried early); a selected record with resolvable credentials becomes
posted with postedAt stamped and error cleared on upstream success, and keeps
status failed with the error message replaced on upstream failure.  Each
record's outcome is the image of that record alone under the per-record
body. -/
theorem retrySweepSpec (env : SweepEnv) (store : List ScheduledTweet) :
    (∀ i t, store.get? i = some t →
      (retryFailedTweets env store).get? i = some (processRetry env t)) ∧
    (∀ t : ScheduledTweet, ¬(t.status = .failed ∧ t.scheduleTime ≤ env.now) →
      processRetry env t = t) ∧
    (∀ t u, t.status = .failed → t.scheduleTime ≤ env.now →
      env.findUser t.userId = some u → hasTokens u = true →
      (env.post t = .ok →
        processRetry env t =
          { t with status := .posted, postedAt := some env.now, error := none }) ∧
      (∀ m, env.post t = .err m →
        processRetry env t = { t with error := some m })) := by
  refine ⟨?_, ?_, ?_⟩
  · intro i t hget
    have h2 : store[i]? = some t := by rw [← List.get?_eq_getElem?]; exact hget
    simp [retryFailedTweets, List.get?_eq_getElem?, List.getElem?_map, h2]
  · intro t hnot
    unfold processRetry
    rw [if_neg hnot]
  · intro t u hf hd hu htok
    constructor
    · intro hpost
      simp [processRetry, hf, hd, hu, htok, hpost]
    · intro m hpost
      simp [processRetry, hf, hd, hu, htok, hpost]

/-- Closed instance of claim C7's theorem: a failed, due record with valid
credentials is reposted on retry, the error cleared, and a failed record
whose target time has not passed is untouched. -/
theorem retrySweepSpecWitness :
    processRetry
        ⟨1000, fun u => if u = "alice" then some ⟨"alice", some "tk", some "sc"⟩ else none,
          fun _ => .ok⟩
        ⟨1, "alice", "hi", 500, .failed, none, some "boom", 100⟩ =
      ⟨1, "alice", "hi", 500, .posted, some 1000, none, 100⟩ ∧
    processRetry
        ⟨1000, fun u => if u = "alice" then some ⟨"alice", some "tk", some "sc"⟩ else none,
          fun _ => .ok⟩
        ⟨2, "alice", "hi", 2000, .failed, none, some "boom", 100⟩ =
      ⟨2, "alice", "hi", 2000, .failed, none, some "boom", 100⟩ := by
  constructor
  · exact
      ((retrySweepSpec
          ⟨1000, fun u => if u = "alice" then some ⟨"alice", some "tk", some "sc"⟩ else none,
            fun _ => .ok⟩ []).2.2
        ⟨1, "alice", "hi", 500, .failed, none, some "boom", 100⟩
        ⟨"alice", some "tk", some "sc"⟩ rfl (by decide) rfl rfl).1 rfl
  · exact
      (retrySweepSpec
          ⟨1000, fun u => if u = "alice" then some ⟨"alice", some "tk", some "sc"⟩ else none,
            fun _ => .ok⟩ []).2.1
        ⟨2, "alice", "hi", 2000, .failed, none, some "boom", 100⟩ (by decide)

/-- Claim C9: already-posted records are never selected by either sweep, and
a second due-post sweep run after a first one, when nothing new has become
due in between, changes nothing. -/
theorem dueSweepIdempotent (env env2 : SweepEnv) (store : List ScheduledTweet)
    (hno : ∀ u ∈ checkScheduledTweets env store,
      u.status = .pending → env2.now < u.scheduleTime) :
    checkScheduledTweets env2 (checkScheduledTweets env store) =
      checkScheduledTweets env store ∧
    ∀ u : ScheduledTweet, u.status = .posted →
      processDue env2 u = u ∧ processRetry env2 u = u := by
  constructor
  · unfold checkScheduledTweets
    apply listMapFix
    intro x hx
    unfold processDue
    rw [if_neg]
    rintro ⟨hpend, hdue⟩
    exact absurd hdue (Nat.not_le.mpr (hno x hx hpend))
  · intro u hu
    constructor
    · unfold processDue
      rw [if_neg]
      rintro ⟨hpend, -⟩
      rw [hu] at hpend
      exact absurd hpend (by simp)
    · unfold processRetry
      rw [if_neg]
      rintro ⟨hfail, -⟩
      rw [hu] at hfail
      exact absurd hfail (by simp)

/-- Closed instance of claim C9's theorem: a store holding a due pending
record, a not-yet-due pending record and a posted record is unchanged by a
second sweep at the same time, and the posted record is fixed by both
per-record bodies. -/
theorem dueSweepIdempotentWitness :
    checkScheduledTweets ⟨1000, fun _ => none, fun _ => .ok⟩
        (checkScheduledTweets ⟨1000, fun _ => none, fun _ => .ok⟩
          [⟨1, "a", "m", 500, .pending, none, none, 0⟩,
           ⟨2, "a", "m", 9999, .pending, none, none, 0⟩,
           ⟨3, "a", "m", 100, .posted, some 50, none, 0⟩]) =
      checkScheduledTweets ⟨1000, fun _ => none, fun _ => .ok⟩
        [⟨1, "a", "m", 500, .pending, none, none, 0⟩,
         ⟨2, "a", "m", 9999, .pending, none, none, 0⟩,
         ⟨3, "a", "m", 100, .posted, some 50, none, 0⟩] ∧
    processDue ⟨1000, fun _ => none, fun _ => .ok⟩
        ⟨3, "a", "m", 100, .posted, some 50, none, 0⟩ =
      ⟨3, "a", "m", 100, .posted, some 50, none, 0⟩ := by
  have h := dueSweepIdempotent ⟨1000, fun _ => none, fun _ => .ok⟩
    ⟨1000, fun _ => none, fun _ => .ok⟩
    [⟨1, "a", "m", 500, .pending, none, none, 0⟩,
     ⟨2, "a", "m", 9999, .pending, none, none, 0⟩,
     ⟨3, "a", "m", 100, .posted, some 50, none, 0⟩]
    (by decide)
  exact ⟨h.1, (h.2 ⟨3, "a", "m", 100, .posted, some 50, none, 0⟩ rfl).1⟩

/-- Helper: when no record matches, the conditional delete returns none and
the store unchanged. -/
theorem fodpNone (uid : String) (id : Nat) :
    ∀ store : List ScheduledTweet,
      (∀ u ∈ store, ¬(u.id = id ∧ u.userId = uid ∧ u.status = .pending)) →
      findOneAndDeletePending store uid id = (none, store) := by
  intro store
  induction store with
  | nil => intro _; rfl
  | cons a tl ih =>
    intro h
    unfold findOneAndDeletePending
    rw [if_neg (h a (by simp))]
    rw [ih (fun u hu => h u (by simp [hu]))]

/-- Helper: when some record matches, the conditional delete removes exactly
the first match and returns it. -/
theorem fodpSome (uid : String) (id : Nat) :
    ∀ store : List ScheduledTweet,
      (∃ u ∈ store, u.id = id ∧ u.userId = uid ∧ u.status = .pending) →
      ∃ l1 u l2, store = l1 ++ u :: l2 ∧
        (∀ v ∈ l1, ¬(v.id = id ∧ v.userId = uid ∧ v.status = .pending)) ∧
        u.id = id ∧ u.userId = uid ∧ u.status = .pending ∧
        findOneAndDeletePending store uid id = (some u, l1 ++ l2) := by
  intro store
  induction store with
  | nil => rintro ⟨u, hu, -⟩; exact absurd hu (by simp)
  | cons a tl ih =>
    intro h
    by_cases ha : a.id = id ∧ a.userId = uid ∧ a.status = .pending
    · refine ⟨[], a, tl, by simp, by simp, ha.1, ha.2.1, ha.2.2, ?_⟩
      unfold findOneAndDeletePending
      rw [if_pos ha]
      simp
    · obtain ⟨u, hu, hprop⟩ := h
      rcases List.mem_cons.mp hu with rfl | hu2
      · exact absurd hprop ha
      · obtain ⟨l1, v, l2, heq, hl1, h1, h2, h3, hrun⟩ := ih ⟨u, hu2, hprop⟩
        refine ⟨a :: l1, v, l2, by simp [heq], ?_, h1, h2, h3, ?_⟩
        · intro w hw
          rcases List.mem_cons.mp hw with rfl | hw2
          · exact ha
          · exact hl1 w hw2
        · unfold findOneAndDeletePending
          rw [if_neg ha, hrun]
          simp

/-- Claim C8: DELETE /api/scheduled-tweets/:id deletes a record exactly when
a record with that id, owned by the caller and still pending, exists; the
deleted record is the first such match and every other record survives; in
every other case the endpoint answers 404 with the store untouched. -/
theorem cancelSpec (uid : String) (id : Nat) (store : List ScheduledTweet) :
    ((∀ u ∈ store, ¬(u.id = id ∧ u.userId = uid ∧ u.status = .pending)) →
      cancelScheduledTweet (some uid) id store =
        (⟨404, false, some "Scheduled tweet not found or already posted"⟩, store)) ∧
    ((∃ u ∈ store, u.id = id ∧ u.userId = uid ∧ u.status = .pending) →
      (cancelScheduledTweet (some uid) id store).fst = ⟨200, true, none⟩ ∧
      ∃ l1 u l2, store = l1 ++ u :: l2 ∧
        (∀ v ∈ l1, ¬(v.id = id ∧ v.userId = uid ∧ v.status = .pending)) ∧
        u.id = id ∧ u.userId = uid ∧ u.status = .pending ∧
        (cancelScheduledTweet (some uid) id store).snd = l1 ++ l2) := by
  constructor
  · intro h
    simp [cancelScheduledTweet, fodpNone uid id store h]
  · intro h
    obtain ⟨l1, u, l2, heq, hl1, h1, h2, h3, hrun⟩ := fodpSome uid id store h
    constructor
    · simp [cancelScheduledTweet, hrun]
    · exact ⟨l1, u, l2, heq, hl1, h1, h2, h3, by simp [cancelScheduledTweet, hrun]⟩

/-- Closed instance of claim C8's theorem: cancelling a pending record owned
by the caller removes exactly it; cancelling a posted record (or another
user's record) yields 404 and no change. -/
theorem cancelSpecWitness :
    cancelScheduledTweet (some "a") 7
        [⟨3, "a", "x", 10, .posted, some 5, none, 0⟩,
         ⟨7, "a", "y", 20, .pending, none, none, 0⟩] =
      (⟨200, true, none⟩, [⟨3, "a", "x", 10, .posted, some 5, none, 0⟩]) ∧
    cancelScheduledTweet (some "a") 3
        [⟨3, "a", "x", 10, .posted, some 5, none, 0⟩,
         ⟨7, "b", "y", 20, .pending, none, none, 0⟩] =
      (⟨404, false, some "Scheduled tweet not found or already posted"⟩,
        [⟨3, "a", "x", 10, .posted, some 5, none, 0⟩,
         ⟨7, "b", "y", 20, .pending, none, none, 0⟩]) := by
  constructor
  · have h := (cancelSpec "a" 7
      [⟨3, "a", "x", 10, .posted, some 5, none, 0⟩,
       ⟨7, "a", "y", 20, .pending, none, none, 0⟩]).2
      ⟨⟨7, "a", "y", 20, .pending, none, none, 0⟩, by simp, rfl, rfl, rfl⟩
    obtain ⟨hresp, l1, u, l2, heq, -, -, -, -, hsnd⟩ := h
    have : (cancelScheduledTweet (some "a") 7
        [⟨3, "a", "x", 10, .posted, some 5, none, 0⟩,
         ⟨7, "a", "y", 20, .pending, none, none, 0⟩]).snd =
        [⟨3, "a", "x", 10, .posted, some 5, none, 0⟩] := by decide
    exact Prod.ext hresp this
  · exact (cancelSpec "a" 3
      [⟨3, "a", "x", 10, .posted, some 5, none, 0⟩,
       ⟨7, "b", "y", 20, .pending, none, none, 0⟩]).1 (by decide)

/-- Helper: both cooldowns are shorter than the window. -/
theorem cooldownLtWindow (ty : RLClass) : rlCooldown ty < rlWindow := by
  cases ty <;> decide

/-- Helper: both limits are positive. -/
theorem rlLimitPos (ty : RLClass) : 0 < rlLimit ty := by
  cases ty <;> decide

/-- Helper: under the stored-reset invariant, the effective entry's reset is
at least one window long. -/
theorem effResetGe (m : Tracker) (uid : String) (now : Nat)
    (hinv : ∀ k e, m k = some e → rlWindow ≤ e.reset) :
    rlWindow ≤ (effLimits m uid now).reset := by
  unfold effLimits
  cases hm : m uid with
  | none => simp [freshLimits]
  | some e =>
    simp only [hm, Option.getD_some]
    by_cases hr : e.reset ≤ now
    · simp [hr, freshLimits]
    · simp [hr]
      exact hinv uid e hm

/-- Helper: every entry a check stores has a reset at least one window away,
so the stored-reset invariant holds in every reachable tracker state. -/
theorem rateGovernorPreservesInv (ty : RLClass) (userId : Option String)
    (now : Nat) (m : Tracker)
    (hinv : ∀ k e, m k = some e → rlWindow ≤ e.reset) :
    ∀ k e, (rateLimitTracker.check ty userId now m).snd k = some e →
      rlWindow ≤ e.reset := by
  cases userId with
  | none => exact hinv
  | some uid =>
    have hm1 : ∀ k e,
        (if (m uid).isSome then trackerSet m uid (effLimits m uid now) else m) k =
          some e → rlWindow ≤ e.reset := by
      intro k e hk
      by_cases hs : (m uid).isSome
      · rw [if_pos hs] at hk
        unfold trackerSet at hk
        by_cases hku : k = uid
        · rw [if_pos hku] at hk
          injection hk with hk2
          rw [← hk2]
          exact effResetGe m uid now hinv
        · rw [if_neg hku] at hk
          exact hinv k e hk
      · rw [if_neg hs] at hk
        exact hinv k e hk
    intro k e hk
    by_cases hcd : now - (effLimits m uid now).lastRequest < rlCooldown ty
    · rw [show (rateLimitTracker.check ty (some uid) now m).snd =
          (if (m uid).isSome then trackerSet m uid (effLimits m uid now) else m) by
        simp [rateLimitTracker.check, hcd]] at hk
      exact hm1 k e hk
    · by_cases hcount : (effLimits m uid now).count < rlLimit ty
      · rw [show (rateLimitTracker.check ty (some uid) now m).snd =
            trackerSet (if (m uid).isSome then trackerSet m uid (effLimits m uid now) else m)
              uid ⟨(effLimits m uid now).count + 1, (effLimits m uid now).reset, now⟩ by
          simp [rateLimitTracker.check, hcd, hcount]] at hk
        unfold trackerSet at hk
        by_cases hku : k = uid
        · rw [if_pos hku] at hk
          injection hk with hk2
          rw [← hk2]
          exact effResetGe m uid now hinv
        · rw [if_neg hku] at hk
          exact hm1 k e hk
      · rw [show (rateLimitTracker.check ty (some uid) now m).snd =
            (if (m uid).isSome then trackerSet m uid (effLimits m uid now) else m) by
          simp [rateLimitTracker.check, hcd, hcount]] at hk
        exact hm1 k e hk

/-- Claim C3: in every tracker state satisfying the reachable-state invariant
(every stored reset lies at least one window out), a check updates the stored
per-user state if and only if it is allowed: a denied check — for missing
user id, cooldown, or exhausted count — leaves the map pointwise unchanged,
and an allowed check stores, in the same step as the decision, the effective
entry with its count incremented and its last-request marker set to now,
touching no other user's state. -/
theorem rateGovernorFrame (ty : RLClass) (userId : Option String) (now : Nat)
    (m : Tracker) (hinv : ∀ k e, m k = some e → rlWindow ≤ e.reset) :
    ((rateLimitTracker.check ty userId now m).fst.allowed = false →
      ∀ k, (rateLimitTracker.check ty userId now m).snd k = m k) ∧
    ((rateLimitTracker.check ty userId now m).fst.allowed = true →
      ∃ uid, userId = some uid ∧
        (rateLimitTracker.check ty userId now m).snd uid =
          some ⟨(effLimits m uid now).count + 1, (effLimits m uid now).reset, now⟩ ∧
        ∀ k, k ≠ uid → (rateLimitTracker.check ty userId now m).snd k = m k) := by
  cases userId with
  | none =>
    constructor
    · intro _ k; rfl
    · intro h; simp [rateLimitTracker.check] at h
  | some uid =>
    have heff : ∀ e, m uid = some e → ¬ e.reset ≤ now →
        effLimits m uid now = e := by
      intro e hm hr
      simp [effLimits, hm, hr]
    have hfreshcd : ∀ e, m uid = some e → e.reset ≤ now →
        ¬ now - (effLimits m uid now).lastRequest < rlCooldown ty := by
      intro e hm hr
      have h1 : effLimits m uid now = freshLimits now := by
        simp [effLimits, hm, hr]
      have h2 := hinv uid e hm
      have h3 := cooldownLtWindow ty
      rw [h1]
      simp [freshLimits]
      omega
    have hfreshcnt : ∀ e, m uid = some e → e.reset ≤ now →
        (effLimits m uid now).count < rlLimit ty := by
      intro e hm hr
      have h1 : effLimits m uid now = freshLimits now := by
        simp [effLimits, hm, hr]
      rw [h1]
      simp [freshLimits]
      exact rlLimitPos ty
    have hm1all : ∀ k, (¬ ∃ e, m uid = some e ∧ e.reset ≤ now) →
        (if (m uid).isSome = true then trackerSet m uid (effLimits m uid now) else m) k
          = m k := by
      intro k hne
      cases hm : m uid with
      | none => simp [hm]
      | some e =>
        have hr : ¬ e.reset ≤ now := fun hr2 => hne ⟨e, hm, hr2⟩
        rw [if_pos (show (some e).isSome = true from rfl)]
        unfold trackerSet
        by_cases hku : k = uid
        · rw [if_pos hku, heff e hm hr, hku, hm]
        · rw [if_neg hku]
    have hframe : ∀ k, k ≠ uid →
        (if (m uid).isSome = true then trackerSet m uid (effLimits m uid now) else m) k
          = m k := by
      intro k hk
      by_cases hs : (m uid).isSome = true
      · rw [if_pos hs]
        unfold trackerSet
        rw [if_neg hk]
      · rw [if_neg hs]
    by_cases hcd : now - (effLimits m uid now).lastRequest < rlCooldown ty
    · have hR : rateLimitTracker.check ty (some uid) now m =
          (⟨false, (effLimits m uid now).lastRequest + rlCooldown ty,
              (rlLimit ty : Int) - (effLimits m uid now).count⟩,
            if (m uid).isSome = true then trackerSet m uid (effLimits m uid now) else m) := by
        simp [rateLimitTracker.check, hcd]
      constructor
      · intro _ k
        rw [hR]
        apply hm1all
        rintro ⟨e, hm, hr⟩
        exact hfreshcd e hm hr hcd
      · intro h
        rw [hR] at h
        simp at h
    · by_cases hcount : (effLimits m uid now).count < rlLimit ty
      · have hR : rateLimitTracker.check ty (some uid) now m =
            (⟨true, (effLimits m uid now).reset,
                (rlLimit ty : Int) - ((effLimits m uid now).count + 1)⟩,
              trackerSet
                (if (m uid).isSome = true then trackerSet m uid (effLimits m uid now) else m)
                uid ⟨(effLimits m uid now).count + 1, (effLimits m uid now).reset, now⟩) := by
          simp [rateLimitTracker.check, hcd, hcount]
        constructor
        · intro h
          rw [hR] at h
          simp at h
        · intro _
          refine ⟨uid, rfl, ?_, ?_⟩
          · rw [hR]
            show trackerSet _ uid _ uid = _
            unfold trackerSet
            rw [if_pos rfl]
          · intro k hk
            rw [hR]
            show trackerSet _ uid _ k = m k
            unfold trackerSet
            rw [if_neg hk]
            exact hframe k hk
      · have hR : rateLimitTracker.check ty (some uid) now m =
            (⟨false, (effLimits m uid now).reset,
                (rlLimit ty : Int) - (effLimits m uid now).count⟩,
              if (m uid).isSome = true then trackerSet m uid (effLimits m uid now) else m) := by
          simp [rateLimitTracker.check, hcd, hcount]
        constructor
        · intro _ k
          rw [hR]
          apply hm1all
          rintro ⟨e, hm, hr⟩
          exact hcount (hfreshcnt e hm hr)
        · intro h
          rw [hR] at h
          simp at h

/-- Closed instance of claim C3's theorem: a first allowed check stores count
1 with the last-request marker set, leaving other users untouched; a
cooldown-denied check changes nothing. -/
theorem rateGovernorFrameWitness :
    (rateLimitTracker.check .tweets (some "u") 5000 (fun _ => none)).fst.allowed = true ∧
    (rateLimitTracker.check .tweets (some "u") 5000 (fun _ => none)).snd "u" =
      some ⟨(effLimits (fun _ => none) "u" 5000).count + 1,
        (effLimits (fun _ => none) "u" 5000).reset, 5000⟩ ∧
    (rateLimitTracker.check .tweets (some "u") 5000 (fun _ => none)).snd "v" = none ∧
    (rateLimitTracker.check .tweets (some "u") 500 (fun _ => none)).fst.allowed = false ∧
    (rateLimitTracker.check .tweets (some "u") 500 (fun _ => none)).snd "u" = none := by
  have hinv : ∀ k e, (fun _ => none : Tracker) k = some e → rlWindow ≤ e.reset := by
    intro k e he
    simp at he
  have h1 := (rateGovernorFrame .tweets (some "u") 5000 (fun _ => none) hinv).2 (by decide)
  obtain ⟨uid, huid, ha, hb⟩ := h1
  injection huid with huid2
  subst huid2
  have h2 := (rateGovernorFrame .tweets (some "u") 500 (fun _ => none) hinv).1 (by decide)
  exact ⟨by decide, ha, hb "v" (by decide), by decide, h2 "u"⟩

/-- Helper: call times spaced by more than a positive gap are monotone. -/
theorem tMono (t : Nat → Nat) (n c : Nat) (hs : ∀ i < n, t i + c < t (i + 1)) :
    ∀ a b, a ≤ b → b ≤ n → t a ≤ t b := by
  intro a b hab hbn
  induction b with
  | zero =>
    have ha : a = 0 := by omega
    rw [ha]
  | succ k ih =>
    by_cases ha : a = k + 1
    · rw [ha]
    · have h1 : t a ≤ t k := ih (by omega) (by omega)
      have h2 : t k + c < t (k + 1) := hs k (by omega)
      omega

/-- The tracker entry for the tracked user expected after i calls of the
claim-C2 scenario: absent before the first call, then count min i N, the
window end fixed by the first call, and the last admitted call time. -/
def rlExpected (ty : RLClass) (t : Nat → Nat) (i : Nat) : Option UserLimits :=
  if i = 0 then none
  else some ⟨min i (rlLimit ty), t 0 + rlWindow, t (min i (rlLimit ty) - 1)⟩

/-- Helper: one step of the claim-C2 scenario: under the expected-state
invariant, call i is allowed exactly when i < limit, and the invariant is
maintained. -/
theorem rlStepLemma (ty : RLClass) (uid : String) (t : Nat → Nat) (m0 : Tracker)
    (n : Nat) (hm : m0 uid = none)
    (hs : ∀ i < n, t i + rlCooldown ty < t (i + 1))
    (h0 : rlCooldown ty < t 0)
    (hw : ∀ i < n, t i < t 0 + rlWindow) :
    ∀ i, i < n → rlStateAfter ty uid t m0 i uid = rlExpected ty t i →
      (rlDecisionAt ty uid t m0 i).allowed = decide (i < rlLimit ty) ∧
      rlStateAfter ty uid t m0 (i + 1) uid = rlExpected ty t (i + 1) := by
  intro i hi hSi
  cases i with
  | zero =>
    have hM : rlStateAfter ty uid t m0 0 uid = none := hm
    have heff : effLimits (rlStateAfter ty uid t m0 0) uid (t 0) = freshLimits (t 0) := by
      unfold effLimits
      rw [hM]
      simp only [Option.getD_none]
      rw [if_neg (by show ¬ (t 0 + rlWindow ≤ t 0); simp only [rlWindow]; omega)]
    have hcd2 : ¬ (t 0 - (effLimits (rlStateAfter ty uid t m0 0) uid (t 0)).lastRequest
        < rlCooldown ty) := by
      rw [heff]
      show ¬ (t 0 - (0 : Nat) < rlCooldown ty)
      omega
    have hcnt2 : (effLimits (rlStateAfter ty uid t m0 0) uid (t 0)).count < rlLimit ty := by
      rw [heff]
      exact rlLimitPos ty
    have hR : rateLimitTracker.check ty (some uid) (t 0) (rlStateAfter ty uid t m0 0) =
        (⟨true, (effLimits (rlStateAfter ty uid t m0 0) uid (t 0)).reset,
            (rlLimit ty : Int) -
              ((effLimits (rlStateAfter ty uid t m0 0) uid (t 0)).count + 1)⟩,
          trackerSet
            (if (rlStateAfter ty uid t m0 0 uid).isSome = true then
              trackerSet (rlStateAfter ty uid t m0 0) uid
                (effLimits (rlStateAfter ty uid t m0 0) uid (t 0))
            else rlStateAfter ty uid t m0 0)
            uid ⟨(effLimits (rlStateAfter ty uid t m0 0) uid (t 0)).count + 1,
              (effLimits (rlStateAfter ty uid t m0 0) uid (t 0)).reset, t 0⟩) := by
      simp [rateLimitTracker.check, hcd2, hcnt2]
    constructor
    · unfold rlDecisionAt
      rw [hR]
      simp [rlLimitPos ty]
    · show (rateLimitTracker.check ty (some uid) (t 0) (rlStateAfter ty uid t m0 0)).snd uid
        = rlExpected ty t 1
      rw [hR]
      show trackerSet _ uid _ uid = rlExpected ty t 1
      unfold trackerSet
      rw [if_pos rfl, heff]
      simp [freshLimits, rlExpected, Nat.min_eq_left (rlLimitPos ty)]
  | succ j =>
    have hSE : rlStateAfter ty uid t m0 (j + 1) uid =
        some ⟨min (j + 1) (rlLimit ty), t 0 + rlWindow,
          t (min (j + 1) (rlLimit ty) - 1)⟩ := by
      rw [hSi]
      simp [rlExpected]
    have hreset : ¬ (t 0 + rlWindow ≤ t (j + 1)) := by
      have := hw (j + 1) hi
      omega
    have heff : effLimits (rlStateAfter ty uid t m0 (j + 1)) uid (t (j + 1)) =
        ⟨min (j + 1) (rlLimit ty), t 0 + rlWindow,
          t (min (j + 1) (rlLimit ty) - 1)⟩ := by
      unfold effLimits
      rw [hSE]
      simp only [Option.getD_some]
      rw [if_neg hreset]
    have hlt : t (min (j + 1) (rlLimit ty) - 1) + rlCooldown ty < t (j + 1) := by
      have h1 : t (min (j + 1) (rlLimit ty) - 1) ≤ t j :=
        tMono t n (rlCooldown ty) hs _ j (by omega) (by omega)
      have h2 : t j + rlCooldown ty < t (j + 1) := hs j (by omega)
      omega
    have hcd2 : ¬ (t (j + 1) -
        (effLimits (rlStateAfter ty uid t m0 (j + 1)) uid (t (j + 1))).lastRequest
          < rlCooldown ty) := by
      rw [heff]
      show ¬ (t (j + 1) - t (min (j + 1) (rlLimit ty) - 1) < rlCooldown ty)
      omega
    by_cases hjL : j + 1 < rlLimit ty
    · have hmin : min (j + 1) (rlLimit ty) = j + 1 := Nat.min_eq_left (by omega)
      have hcnt2 : (effLimits (rlStateAfter ty uid t m0 (j + 1)) uid (t (j + 1))).count
          < rlLimit ty := by
        rw [heff]
        show min (j + 1) (rlLimit ty) < rlLimit ty
        omega
      have hR : rateLimitTracker.check ty (some uid) (t (j + 1))
            (rlStateAfter ty uid t m0 (j + 1)) =
          (⟨true, (effLimits (rlStateAfter ty uid t m0 (j + 1)) uid (t (j + 1))).reset,
              (rlLimit ty : Int) -
                ((effLimits (rlStateAfter ty uid t m0 (j + 1)) uid (t (j + 1))).count + 1)⟩,
            trackerSet
              (if (rlStateAfter ty uid t m0 (j + 1) uid).isSome = true then
                trackerSet (rlStateAfter ty uid t m0 (j + 1)) uid
                  (effLimits (rlStateAfter ty uid t m0 (j + 1)) uid (t (j + 1)))
              else rlStateAfter ty uid t m0 (j + 1))
              uid ⟨(effLimits (rlStateAfter ty uid t m0 (j + 1)) uid (t (j + 1))).count + 1,
                (effLimits (rlStateAfter ty uid t m0 (j + 1)) uid (t (j + 1))).reset,
                t (j + 1)⟩) := by
        simp [rateLimitTracker.check, hcd2, hcnt2]
      constructor
      · unfold rlDecisionAt
        rw [hR]
        simp [hjL]
      · show (rateLimitTracker.check ty (some uid) (t (j + 1))
            (rlStateAfter ty uid t m0 (j + 1))).snd uid = rlExpected ty t (j + 2)
        rw [hR]
        show trackerSet _ uid _ uid = rlExpected ty t (j + 2)
        unfold trackerSet
        rw [if_pos rfl, heff]
        have hmin2 : min (j + 2) (rlLimit ty) = j + 2 := Nat.min_eq_left (by omega)
        simp [rlExpected, hmin, hmin2]
    · have hmin : min (j + 1) (rlLimit ty) = rlLimit ty := Nat.min_eq_right (by omega)
      have hcnt2 : ¬ ((effLimits (rlStateAfter ty uid t m0 (j + 1)) uid (t (j + 1))).count
          < rlLimit ty) := by
        rw [heff]
        show ¬ (min (j + 1) (rlLimit ty) < rlLimit ty)
        omega
      have hR : rateLimitTracker.check ty (some uid) (t (j + 1))
            (rlStateAfter ty uid t m0 (j + 1)) =
          (⟨false, (effLimits (rlStateAfter ty uid t m0 (j + 1)) uid (t (j + 1))).reset,
              (rlLimit ty : Int) -
                (effLimits (rlStateAfter ty uid t m0 (j + 1)) uid (t (j + 1))).count⟩,
            if (rlStateAfter ty uid t m0 (j + 1) uid).isSome = true then
              trackerSet (rlStateAfter ty uid t m0 (j + 1)) uid
                (effLimits (rlStateAfter ty uid t m0 (j + 1)) uid (t (j + 1)))
            else rlStateAfter ty uid t m0 (j + 1)) := by
        simp [rateLimitTracker.check, hcd2, hcnt2]
      constructor
      · unfold rlDecisionAt
        rw [hR]
        simp [hjL]
      · show (rateLimitTracker.check ty (some uid) (t (j + 1))
            (rlStateAfter ty uid t m0 (j + 1))).snd uid = rlExpected ty t (j + 2)
        rw [hR]
        show (if (rlStateAfter ty uid t m0 (j + 1) uid).isSome = true then
            trackerSet (rlStateAfter ty uid t m0 (j + 1)) uid
              (effLimits (rlStateAfter ty uid t m0 (j + 1)) uid (t (j + 1)))
          else rlStateAfter ty uid t m0 (j + 1)) uid = rlExpected ty t (j + 2)
        rw [if_pos (by rw [hSE]; rfl)]
        unfold trackerSet
        rw [if_pos rfl, heff]
        have hmin2 : min (j + 2) (rlLimit ty) = rlLimit ty := Nat.min_eq_right (by omega)
        simp [rlExpected, hmin, hmin2]

/-- Helper: the expected-state invariant holds along the whole claim-C2
scenario run. -/
theorem rlInvariant (ty : RLClass) (uid : String) (t : Nat → Nat) (m0 : Tracker)
    (n : Nat) (hm : m0 uid = none)
    (hs : ∀ i < n, t i + rlCooldown ty < t (i + 1))
    (h0 : rlCooldown ty < t 0)
    (hw : ∀ i < n, t i < t 0 + rlWindow) :
    ∀ i ≤ n, rlStateAfter ty uid t m0 i uid = rlExpected ty t i := by
  intro i
  induction i with
  | zero =>
    intro _
    show m0 uid = rlExpected ty t 0
    rw [hm]
    simp [rlExpected]
  | succ j ih =>
    intro hj
    exact (rlStepLemma ty uid t m0 n hm hs h0 hw j (by omega) (ih (by omega))).2

/-- Claim C2: for a fixed user and class, starting from a state with no entry
for that user and with successive calls spaced farther apart than the class
cooldown and all landing inside the window opened by the first call, call i
(0-indexed) is allowed exactly when i < N, where N is 150 for tweets and 300
for analytics — so exactly N calls are admitted, and every further in-window
call is denied; and as soon as the window reset time has passed, a further
call is allowed again. -/
theorem rateGovernorWindow (ty : RLClass) (uid : String) (t : Nat → Nat)
    (m0 : Tracker) (n : Nat) (hm : m0 uid = none)
    (hs : ∀ i < n, t i + rlCooldown ty < t (i + 1))
    (h0 : rlCooldown ty < t 0)
    (hw : ∀ i < n, t i < t 0 + rlWindow) :
    (∀ i < n, (rlDecisionAt ty uid t m0 i).allowed = decide (i < rlLimit ty)) ∧
    (∀ T, t 0 + rlWindow ≤ T →
      (rateLimitTracker.check ty (some uid) T (rlStateAfter ty uid t m0 n)).fst.allowed
        = true) := by
  constructor
  · intro i hi
    exact (rlStepLemma ty uid t m0 n hm hs h0 hw i hi
      (rlInvariant ty uid t m0 n hm hs h0 hw i (Nat.le_of_lt hi))).1
  · intro T hT
    have hSn := rlInvariant ty uid t m0 n hm hs h0 hw n (le_refl n)
    have hWcd := cooldownLtWindow ty
    have heff : effLimits (rlStateAfter ty uid t m0 n) uid T = freshLimits T := by
      cases n with
      | zero =>
        unfold effLimits
        rw [show rlStateAfter ty uid t m0 0 uid = none from hm]
        simp only [Option.getD_none]
        by_cases hc : (freshLimits T).reset ≤ T
        · rw [if_pos hc]
        · rw [if_neg hc]
      | succ j =>
        have hE : rlStateAfter ty uid t m0 (j + 1) uid =
            some ⟨min (j + 1) (rlLimit ty), t 0 + rlWindow,
              t (min (j + 1) (rlLimit ty) - 1)⟩ := by
          rw [hSn]
          simp [rlExpected]
        unfold effLimits
        rw [hE]
        simp only [Option.getD_some]
        rw [if_pos hT]
    have hcd2 : ¬ (T - (effLimits (rlStateAfter ty uid t m0 n) uid T).lastRequest
        < rlCooldown ty) := by
      rw [heff]
      show ¬ (T - (0 : Nat) < rlCooldown ty)
      omega
    have hcnt2 : (effLimits (rlStateAfter ty uid t m0 n) uid T).count < rlLimit ty := by
      rw [heff]
      exact rlLimitPos ty
    simp [rateLimitTracker.check, hcd2, hcnt2]

/-- Closed instance of claim C2's theorem for the tweets class: with 151
calls spaced 2 seconds apart from a fresh state, call 149 is still allowed,
call 150 (the 151st) is denied, and a call after the window reset time is
allowed again. -/
theorem rateGovernorWindowWitness :
    (rlDecisionAt .tweets "u" (fun i => 2000 + 2000 * i) (fun _ => none) 149).allowed
      = true ∧
    (rlDecisionAt .tweets "u" (fun i => 2000 + 2000 * i) (fun _ => none) 150).allowed
      = false ∧
    (rateLimitTracker.check .tweets (some "u") 3700000
        (rlStateAfter .tweets "u" (fun i => 2000 + 2000 * i) (fun _ => none) 151)).fst.allowed
      = true := by
  have h := rateGovernorWindow .tweets "u" (fun i => 2000 + 2000 * i) (fun _ => none) 151
    rfl (by decide) (by decide) (by decide)
  exact ⟨(h.1 149 (by decide)).trans (by decide),
    (h.1 150 (by decide)).trans (by decide),
    h.2 3700000 (by decide)⟩

/-- Claim C4: for an authenticated, rate-admitted POST /api/tweet request
with a valid non-empty message and a (truthy) scheduleTime field: an
unparseable scheduleTime or one at or before now is rejected with 400 and
creates no record; a strictly future one appends a pending ScheduledTweet
and answers success true, scheduled true with the new record's id. -/
theorem scheduleCreationSpec (uid : String) (message : Option String)
    (p : Option Nat) (now nextId : Nat) (rl : Tracker)
    (store : List ScheduledTweet) (imm : ImmediateResult)
    (hallow : (rateLimitTracker.check .tweets (some uid) now rl).fst.allowed = true)
    (hmsg : ¬ (strTrim (message.getD "") = ""))
    (hlen : (message.getD "").length ≤ 280) :
    (p = none →
      (postTweetHandler (some uid) message (some p) now nextId rl store imm).fst.status
          = 400 ∧
      (postTweetHandler (some uid) message (some p) now nextId rl store imm).snd.snd
          = store) ∧
    (∀ st, p = some st → st ≤ now →
      (postTweetHandler (some uid) message (some p) now nextId rl store imm).fst.status
          = 400 ∧
      (postTweetHandler (some uid) message (some p) now nextId rl store imm).snd.snd
          = store) ∧
    (∀ st, p = some st → now < st →
      (postTweetHandler (some uid) message (some p) now nextId rl store imm).fst
          = ⟨200, true, some true, some nextId, some st, none, none, none⟩ ∧
      (postTweetHandler (some uid) message (some p) now nextId rl store imm).snd.snd
          = store ++
            [⟨nextId, uid, strTrim (message.getD ""), st, .pending, none, none, now⟩]) := by
  have hlen2 : ¬ (280 < (message.getD "").length) := by omega
  refine ⟨?_, ?_, ?_⟩
  · intro hp
    subst hp
    constructor <;> simp [postTweetHandler, hallow, hmsg, hlen2]
  · intro st hp hst
    subst hp
    have hst2 : st ≤ now := hst
    constructor <;> simp [postTweetHandler, hallow, hmsg, hlen2, hst2]
  · intro st hp hst
    subst hp
    have hst2 : ¬ (st ≤ now) := by omega
    constructor <;> simp [postTweetHandler, hallow, hmsg, hlen2, hst2]

/-- Closed instance of claim C4's theorem: a request with a future
scheduleTime creates a pending record and returns scheduled true; one with a
past scheduleTime is answered 400 with nothing stored. -/
theorem scheduleCreationSpecWitness :
    (postTweetHandler (some "u") (some " hi ") (some (some 9999)) 5000 42
        (fun _ => none) [] (.posted 1)).fst
      = ⟨200, true, some true, some 42, some 9999, none, none, none⟩ ∧
    (postTweetHandler (some "u") (some " hi ") (some (some 9999)) 5000 42
        (fun _ => none) [] (.posted 1)).snd.snd
      = [⟨42, "u", "hi", 9999, .pending, none, none, 5000⟩] ∧
    (postTweetHandler (some "u") (some " hi ") (some (some 4000)) 5000 42
        (fun _ => none) [] (.posted 1)).fst.status = 400 ∧
    (postTweetHandler (some "u") (some " hi ") (some (some 4000)) 5000 42
        (fun _ => none) [] (.posted 1)).snd.snd = [] := by
  have h1 := (scheduleCreationSpec "u" (some " hi ") (some 9999) 5000 42
    (fun _ => none) [] (.posted 1) (by decide) (by decide) (by decide)).2.2
    9999 rfl (by decide)
  have h2 := (scheduleCreationSpec "u" (some " hi ") (some 4000) 5000 42
    (fun _ => none) [] (.posted 1) (by decide) (by decide) (by decide)).2.1
    4000 rfl (by decide)
  refine ⟨h1.1, ?_, h2.1, h2.2⟩
  rw [h1.2]
  rfl

/-- Claim C6 (amended): an authenticated read that arrives while a cache
entry exists whose age is under the 30-second freshness window — for the
analytics endpoint the cached payload must additionally be non-empty, since
its hasCachedData test treats an empty payload as no cache — is answered
from the cache, marked cached, with no upstream call and the cache contents
and fetch timestamp left unchanged. -/
theorem freshCacheServed (α : Type) :
    (∀ (tokensOk : Bool) (now : Nat) (cache : CacheState α) (rl : Tracker)
        (up : UpstreamResult α) (d : List α),
      cache.data = some d → cacheAge cache now < CACHE_DURATION →
      (getTweetsHandler true tokensOk now cache rl up).resp
          = ⟨200, true, some d, some true, none, none, none⟩ ∧
      (getTweetsHandler true tokensOk now cache rl up).cache = cache ∧
      (getTweetsHandler true tokensOk now cache rl up).rl = rl ∧
      (getTweetsHandler true tokensOk now cache rl up).upstreamCalled = false) ∧
    (∀ (uid : String) (tokensOk : Bool) (now : Nat) (cache : CacheState α)
        (rl : Tracker) (up : UpstreamResult α) (d : List α),
      cache.data = some d → d ≠ [] → cacheAge cache now < CACHE_DURATION →
      (getAnalyticsHandler (some uid) tokensOk now cache rl up).resp
          = ⟨200, true, some d, some true, none, none, none⟩ ∧
      (getAnalyticsHandler (some uid) tokensOk now cache rl up).cache = cache ∧
      (getAnalyticsHandler (some uid) tokensOk now cache rl up).rl = rl ∧
      (getAnalyticsHandler (some uid) tokensOk now cache rl up).upstreamCalled
          = false) := by
  constructor
  · intro tokensOk now cache rl up d hd hage
    have hs : cache.data.isSome = true := by rw [hd]; rfl
    refine ⟨?_, ?_, ?_, ?_⟩ <;> simp [getTweetsHandler, hs, hage, hd]
  · intro uid tokensOk now cache rl up d hd hne hage
    have hc : analyticsHasCached cache = true := by
      unfold analyticsHasCached
      rw [hd]
      simp [List.length_pos, hne]
    refine ⟨?_, ?_, ?_, ?_⟩ <;> simp [getAnalyticsHandler, hc, hage, hd]

/-- Counterexample to claim C6 as stated: the analytics cache holds a fresh
entry whose payload is the empty list; the handler nevertheless calls
upstream and overwrites the cache, because its hasCachedData test requires a
non-empty payload. -/
theorem freshCacheServedCex :
    (⟨some [], some 1000⟩ : CacheState Nat).data = some [] ∧
    cacheAge (⟨some [], some 1000⟩ : CacheState Nat) 5000 < CACHE_DURATION ∧
    (getAnalyticsHandler (some "u") true 5000 (⟨some [], some 1000⟩ : CacheState Nat)
        (fun _ => none) (.ok [7])).upstreamCalled = true ∧
    (getAnalyticsHandler (some "u") true 5000 (⟨some [], some 1000⟩ : CacheState Nat)
        (fun _ => none) (.ok [7])).cache = ⟨some [7], some 5000⟩ := by
  refine ⟨rfl, by decide, by decide, by decide⟩

/-- Closed instance of claim C6's amended theorem: a fresh non-empty cache
entry is served by both endpoints with no upstream call. -/
theorem freshCacheServedWitness :
    (getTweetsHandler true true 5000 (⟨some [3], some 1000⟩ : CacheState Nat)
        (fun _ => none) (.ok [7])).resp
      = ⟨200, true, some [3], some true, none, none, none⟩ ∧
    (getTweetsHandler true true 5000 (⟨some [3], some 1000⟩ : CacheState Nat)
        (fun _ => none) (.ok [7])).upstreamCalled = false ∧
    (getAnalyticsHandler (some "u") true 5000 (⟨some [3], some 1000⟩ : CacheState Nat)
        (fun _ => none) (.ok [7])).resp
      = ⟨200, true, some [3], some true, none, none, none⟩ ∧
    (getAnalyticsHandler (some "u") true 5000 (⟨some [3], some 1000⟩ : CacheState Nat)
        (fun _ => none) (.ok [7])).cache = ⟨some [3], some 1000⟩ := by
  have h1 := (freshCacheServed Nat).1 true 5000 ⟨some [3], some 1000⟩
    (fun _ => none) (.ok [7]) [3] rfl (by decide)
  have h2 := (freshCacheServed Nat).2 "u" true 5000 ⟨some [3], some 1000⟩
    (fun _ => none) (.ok [7]) [3] rfl (by decide) (by decide)
  exact ⟨h1.1, h1.2.2.2, h2.1, h2.2.1⟩

/-- Claim C5 (amended): GET /api/tweets never consults the Rate Governor —
its tracker state is returned untouched and every observable output is
independent of that state.  GET /api/analytics consults the governor only
when no fresh cache hit occurs; when the governor denies, it answers from
the cache marked cached:true when its (non-empty) cache test holds, and
otherwise returns 429 carrying the decision's reset time, in both cases
without calling upstream. -/
theorem readGovernorSpec (α : Type) :
    (∀ (authed tokensOk : Bool) (now : Nat) (cache : CacheState α)
        (rl rl2 : Tracker) (up : UpstreamResult α),
      (getTweetsHandler authed tokensOk now cache rl up).rl = rl ∧
      (getTweetsHandler authed tokensOk now cache rl up).resp
          = (getTweetsHandler authed tokensOk now cache rl2 up).resp ∧
      (getTweetsHandler authed tokensOk now cache rl up).cache
          = (getTweetsHandler authed tokensOk now cache rl2 up).cache ∧
      (getTweetsHandler authed tokensOk now cache rl up).upstreamCalled
          = (getTweetsHandler authed tokensOk now cache rl2 up).upstreamCalled) ∧
    (∀ (uid : String) (tokensOk : Bool) (now : Nat) (cache : CacheState α)
        (rl : Tracker) (up : UpstreamResult α),
      ¬ (analyticsHasCached cache = true ∧ cacheAge cache now < CACHE_DURATION) →
      (rateLimitTracker.check .analytics (some uid) now rl).fst.allowed = false →
      (getAnalyticsHandler (some uid) tokensOk now cache rl up).upstreamCalled
          = false ∧
      (analyticsHasCached cache = true →
        (getAnalyticsHandler (some uid) tokensOk now cache rl up).resp
          = ⟨200, true, cache.data, some true,
              some "Rate limited - showing cached data", none, none⟩) ∧
      (analyticsHasCached cache = false →
        (getAnalyticsHandler (some uid) tokensOk now cache rl up).resp
          = ⟨429, false, none, none, none,
              some (rateLimitTracker.check .analytics (some uid) now rl).fst.reset,
              some "Please wait a moment before refreshing analytics"⟩)) := by
  constructor
  · intro authed tokensOk now cache rl rl2 up
    cases up with
    | ok items =>
      unfold getTweetsHandler
      split_ifs <;> exact ⟨rfl, rfl, rfl, rfl⟩
    | err429 rh =>
      unfold getTweetsHandler
      split_ifs <;> exact ⟨rfl, rfl, rfl, rfl⟩
    | errOther m =>
      unfold getTweetsHandler
      split_ifs <;> exact ⟨rfl, rfl, rfl, rfl⟩
  · intro uid tokensOk now cache rl up hnf hdeny
    by_cases hc : analyticsHasCached cache = true
    · have hstale : ¬ (cacheAge cache now < CACHE_DURATION) := fun h => hnf ⟨hc, h⟩
      have hR : getAnalyticsHandler (some uid) tokensOk now cache rl up =
          ⟨⟨200, true, cache.data, some true,
              some "Rate limited - showing cached data", none, none⟩,
            cache, (rateLimitTracker.check .analytics (some uid) now rl).snd, false⟩ := by
        simp [getAnalyticsHandler, hstale, hdeny, hc]
      refine ⟨by rw [hR], fun _ => by rw [hR], fun hc2 => ?_⟩
      rw [hc] at hc2
      exact absurd hc2 (by simp)
    · have hR : getAnalyticsHandler (some uid) tokensOk now cache rl up =
          ⟨⟨429, false, none, none, none,
              some (rateLimitTracker.check .analytics (some uid) now rl).fst.reset,
              some "Please wait a moment before refreshing analytics"⟩,
            cache, (rateLimitTracker.check .analytics (some uid) now rl).snd, false⟩ := by
        simp [getAnalyticsHandler, hnf, hdeny, hc]
      exact ⟨by rw [hR], fun hc2 => absurd hc2 hc, fun _ => by rw [hR]⟩

/-- Counterexample to claim C5 as stated: at a moment when the governor
would deny the session user's tweets-class check and no cache entry exists,
GET /api/tweets does not answer 429 — it never consults the governor, calls
upstream and returns fresh data. -/
theorem readGovernorCex :
    (rateLimitTracker.check .tweets (some "alice") 20000
        (fun u => if u = "alice" then some ⟨0, 7200000, 19500⟩ else none)).fst.allowed
      = false ∧
    (⟨none, none⟩ : CacheState Nat).data = none ∧
    (getTweetsHandler true true 20000 (⟨none, none⟩ : CacheState Nat)
        (fun u => if u = "alice" then some ⟨0, 7200000, 19500⟩ else none)
        (.ok [7])).resp.status = 200 ∧
    (getTweetsHandler true true 20000 (⟨none, none⟩ : CacheState Nat)
        (fun u => if u = "alice" then some ⟨0, 7200000, 19500⟩ else none)
        (.ok [7])).upstreamCalled = true := by
  refine ⟨by decide, rfl, by decide, by decide⟩

/-- Closed instance of claim C5's amended theorem: the tweets handler is
insensitive to the tracker state, and a governor-denied analytics request
with no cache answers 429 with the decision's reset time. -/
theorem readGovernorSpecWitness :
    (getTweetsHandler true true 20000 (⟨none, none⟩ : CacheState Nat)
        (fun u => if u = "alice" then some ⟨0, 7200000, 19500⟩ else none)
        (.ok [7])).resp
      = (getTweetsHandler true true 20000 (⟨none, none⟩ : CacheState Nat)
          (fun _ => none) (.ok [7])).resp ∧
    (getAnalyticsHandler (some "u") true 500 (⟨none, none⟩ : CacheState Nat)
        (fun _ => none) (.ok [7])).upstreamCalled = false ∧
    (getAnalyticsHandler (some "u") true 500 (⟨none, none⟩ : CacheState Nat)
        (fun _ => none) (.ok [7])).resp
      = ⟨429, false, none, none, none,
          some (rateLimitTracker.check .analytics (some "u") 500
            (fun _ => none)).fst.reset,
          some "Please wait a moment before refreshing analytics"⟩ := by
  have h1 := (readGovernorSpec Nat).1 true true 20000 ⟨none, none⟩
    (fun u => if u = "alice" then some ⟨0, 7200000, 19500⟩ else none)
    (fun _ => none) (.ok [7])
  have h2 := (readGovernorSpec Nat).2 "u" true 500 ⟨none, none⟩
    (fun _ => none) (.ok [7]) (by decide) (by decide)
  exact ⟨h1.2.1, h2.1, h2.2.2 (by decide)⟩

/-- Claim C10 (amended): the read caches are process-wide singletons keyed
only by operation class.  After any session's fetch that actually reaches
upstream and succeeds, a request by any other authenticated user to the same
endpoint within the 30-second window is answered with the first user's
payload marked cached:true and no upstream call — for the analytics endpoint
provided that payload is non-empty, since an empty cached analytics payload
is treated as no cache. -/
theorem crossUserCacheShared (α : Type) :
    (∀ (tokB : Bool) (now1 now2 : Nat) (cache : CacheState α) (rl : Tracker)
        (up2 : UpstreamResult α) (items : List α),
      (getTweetsHandler true true now1 cache rl (.ok items)).upstreamCalled = true →
      now2 - now1 < CACHE_DURATION →
      (getTweetsHandler true tokB now2
          (getTweetsHandler true true now1 cache rl (.ok items)).cache
          (getTweetsHandler true true now1 cache rl (.ok items)).rl up2).resp
        = ⟨200, true, some items, some true, none, none, none⟩ ∧
      (getTweetsHandler true tokB now2
          (getTweetsHandler true true now1 cache rl (.ok items)).cache
          (getTweetsHandler true true now1 cache rl (.ok items)).rl up2).upstreamCalled
        = false) ∧
    (∀ (userA userB : String) (tokB : Bool) (now1 now2 : Nat)
        (cache : CacheState α) (rl : Tracker) (up2 : UpstreamResult α)
        (items : List α),
      userA ≠ userB → items ≠ [] →
      (getAnalyticsHandler (some userA) true now1 cache rl (.ok items)).upstreamCalled
        = true →
      now2 - now1 < CACHE_DURATION →
      (getAnalyticsHandler (some userB) tokB now2
          (getAnalyticsHandler (some userA) true now1 cache rl (.ok items)).cache
          (getAnalyticsHandler (some userA) true now1 cache rl (.ok items)).rl up2).resp
        = ⟨200, true, some items, some true, none, none, none⟩ ∧
      (getAnalyticsHandler (some userB) tokB now2
          (getAnalyticsHandler (some userA) true now1 cache rl (.ok items)).cache
          (getAnalyticsHandler (some userA) true now1 cache rl (.ok items)).rl
          up2).upstreamCalled = false) := by
  constructor
  · intro tokB now1 now2 cache rl up2 items hCalled hnow
    have hcache : (getTweetsHandler true true now1 cache rl (.ok items)).cache
        = ⟨some items, some now1⟩ := by
      by_cases hf : cache.data.isSome = true ∧ cacheAge cache now1 < CACHE_DURATION
      · simp [getTweetsHandler, hf.1, hf.2] at hCalled
      · unfold getTweetsHandler
        rw [if_neg (by simp : ¬ (true = false)), if_neg hf,
          if_neg (by simp : ¬ (true = false))]
    have hage2 : cacheAge (⟨some items, some now1⟩ : CacheState α) now2
        < CACHE_DURATION := by
      simpa [cacheAge] using hnow
    rw [hcache]
    constructor <;>
      simp [getTweetsHandler, hage2]
  · intro userA userB tokB now1 now2 cache rl up2 items hAB hne hCalled hnow
    have hcache : (getAnalyticsHandler (some userA) true now1 cache rl (.ok items)).cache
        = ⟨some items, some now1⟩ := by
      by_cases hc : analyticsHasCached cache = true
      · have hstale : ¬ (cacheAge cache now1 < CACHE_DURATION) := by
          intro h
          simp [getAnalyticsHandler, hc, h] at hCalled
        by_cases hd : (rateLimitTracker.check .analytics (some userA) now1 rl).fst.allowed
            = false
        · simp [getAnalyticsHandler, hc, hstale, hd] at hCalled
        · simp [getAnalyticsHandler, hc, hstale, hd]
      · by_cases hd : (rateLimitTracker.check .analytics (some userA) now1 rl).fst.allowed
            = false
        · simp [getAnalyticsHandler, hc, hd] at hCalled
        · simp [getAnalyticsHandler, hc, hd]
    have hc2 : analyticsHasCached (⟨some items, some now1⟩ : CacheState α) = true := by
      simp [analyticsHasCached, List.length_pos, hne]
    have hage2 : cacheAge (⟨some items, some now1⟩ : CacheState α) now2
        < CACHE_DURATION := by
      simpa [cacheAge] using hnow
    rw [hcache]
    constructor <;>
      simp [getAnalyticsHandler, hc2, hage2]

/-- Counterexample to claim C10 as stated: user a's successful analytics
fetch returns the empty list and populates the cache with it; user b's
request one second later is not served that cached payload — the handler
refetches upstream and answers cached:false with b's own fresh data. -/
theorem crossUserCacheCex :
    ("a" : String) ≠ "b" ∧
    (getAnalyticsHandler (some "a") true 5000 (⟨none, none⟩ : CacheState Nat)
        (fun _ => none) (.ok [])).resp.success = true ∧
    (getAnalyticsHandler (some "a") true 5000 (⟨none, none⟩ : CacheState Nat)
        (fun _ => none) (.ok [])).cache.data = some [] ∧
    ((6000 : Nat) - 5000 < CACHE_DURATION) ∧
    (getAnalyticsHandler (some "b") true 6000
        (getAnalyticsHandler (some "a") true 5000 (⟨none, none⟩ : CacheState Nat)
          (fun _ => none) (.ok [])).cache
        (getAnalyticsHandler (some "a") true 5000 (⟨none, none⟩ : CacheState Nat)
          (fun _ => none) (.ok [])).rl
        (.ok [9])).resp.cached = some false ∧
    (getAnalyticsHandler (some "b") true 6000
        (getAnalyticsHandler (some "a") true 5000 (⟨none, none⟩ : CacheState Nat)
          (fun _ => none) (.ok [])).cache
        (getAnalyticsHandler (some "a") true 5000 (⟨none, none⟩ : CacheState Nat)
          (fun _ => none) (.ok [])).rl
        (.ok [9])).upstreamCalled = true := by
  refine ⟨by decide, by decide, by decide, by decide, by decide, by decide⟩

/-- Closed instance of claim C10's amended theorem: user b, within the
window, is served the payload user a's fetch cached, marked cached:true,
with no upstream call, on both endpoints. -/
theorem crossUserCacheSharedWitness :
    (getAnalyticsHandler (some "b") true 6000
        (getAnalyticsHandler (some "a") true 5000 (⟨none, none⟩ : CacheState Nat)
          (fun _ => none) (.ok [7])).cache
        (getAnalyticsHandler (some "a") true 5000 (⟨none, none⟩ : CacheState Nat)
          (fun _ => none) (.ok [7])).rl
        (.ok [9])).resp
      = ⟨200, true, some [7], some true, none, none, none⟩ ∧
    (getTweetsHandler true true 6000
        (getTweetsHandler true true 5000 (⟨none, none⟩ : CacheState Nat)
          (fun _ => none) (.ok [7])).cache
        (getTweetsHandler true true 5000 (⟨none, none⟩ : CacheState Nat)
          (fun _ => none) (.ok [7])).rl
        (.ok [9])).resp
      = ⟨200, true, some [7], some true, none, none, none⟩ := by
  have h1 := (crossUserCacheShared Nat).2 "a" "b" true 5000 6000 ⟨none, none⟩
    (fun _ => none) (.ok [9]) [7] (by decide) (by decide) (by decide) (by decide)
  have h2 := (crossUserCacheShared Nat).1 true 5000 6000 ⟨none, none⟩
    (fun _ => none) (.ok [9]) [7] (by decide) (by decide)
  exact ⟨h1.1, h2.1⟩
